import Mathlib

/-!
Verification of the NeuroChatAI conversational pipeline (src/streamlit_app.py).

The Python source is shallowly embedded below: the Streamlit session state
becomes an explicit `ConversationState` record, UI and logging side effects
become an explicit `Event` list, the network call's result becomes a
`CallOutcome` parameter, and `time.time()` becomes an explicit rational
timestamp argument. Each definition mirrors one function of the source file.
-/

namespace NeuroChat

/-- Message role, as stored by the source in the string field `role`
(`"user"` or `"assistant"`). -/
inductive Role where
  | user
  | assistant
deriving DecidableEq, Repr

/-- A chat message: the dicts `{"role": ..., "content": ...}` appended to
`st.session_state["messages"]`. -/
structure Message where
  role : Role
  content : String
deriving DecidableEq, Repr

/-- The per-session conversation state: the fields of
`st.session_state` used by the conversational pipeline
(`initialize_session_state`, lines 65-79). `last_request_time` is a
rational timestamp (the source uses `time.time()` floats). -/
structure ConversationState where
  messages : List Message
  system_prompt : String
  last_request_time : ℚ
deriving DecidableEq, Repr

/-- Observable side effects of a turn: `st.warning`, `st.error`,
`logger.error`, the chat bubbles, and the outgoing API call (the
`requests.post` with its prompt payload field). -/
inductive Event where
  | warn (msg : String)
  | showError (msg : String)
  | logError (msg : String)
  | chatUser (msg : String)
  | chatAssistant (msg : String)
  | apiCall (prompt : String)
deriving DecidableEq, Repr

/-- The decoded JSON body of a model response. `choices = none` models a
body with no `"choices"` key (or a falsy body); `choices = some l` models
a `"choices"` array whose elements carry the listed `"text"` fields. -/
structure ApiResponse where
  choices : Option (List String)
deriving DecidableEq, Repr

/-- Outcome of the blocking `requests.post` in `send_request_to_model`
(lines 146-154): the three caught exception classes, or a decoded body. -/
inductive CallOutcome where
  | timeout
  | requestError (detail : String)
  | decodeError
  | ok (resp : ApiResponse)
deriving DecidableEq, Repr

/-- True on the three failure outcomes, false on a decoded body. -/
def CallOutcome.isFailure : CallOutcome → Bool
  | .ok _ => false
  | _ => true

/-- Python whitespace characters recognised by `str.strip()` (ASCII
range: space, tab, newline, carriage return, vertical tab, form feed). -/
def isPyWhitespace (c : Char) : Bool :=
  c == ' ' || c == '\t' || c == '\n' || c == '\r' ||
  c == Char.ofNat 11 || c == Char.ofNat 12

/-- Python `str.strip()`: drop whitespace from both ends. -/
def pyStrip (s : String) : String :=
  String.mk ((((s.data.dropWhile isPyWhitespace).reverse).dropWhile isPyWhitespace).reverse)

/-- Default value of the `MAX_HISTORY_MESSAGES` constant (line 32). -/
def MAX_HISTORY_MESSAGES : Nat := 5

/-- Default value of the `RATE_LIMIT_SECONDS` constant (line 33). -/
def RATE_LIMIT_SECONDS : ℚ := 1

/-- Python trailing slice `l[-n:]` as used at line 183: for `n > 0` the
last `n` elements; for `n = 0` the slice `[-0:]` is the whole list. -/
def pySliceLast (n : Nat) (l : List α) : List α :=
  if n = 0 then l else l.drop (l.length - n)

/-- Embedding of `rate_limit_check` (lines 120-133). The session state
read/write becomes the explicit `last_request_time` argument and first
component of the result; the second component is the returned Bool and
the third the emitted `st.warning` events. -/
def rate_limit_check (interval last_request_time current_time : ℚ) :
    ℚ × Bool × List Event :=
  if current_time - last_request_time < interval then
    (last_request_time, false,
      [Event.warn ("Please wait " ++ toString interval ++ " seconds between messages.")])
  else
    (current_time, true, [])

/-- Embedding of `send_request_to_model` (lines 135-164): each `except`
clause returns `None` after an `st.error` and a `logger.error`; a decoded
body is returned as-is. -/
def send_request_to_model (outcome : CallOutcome) :
    Option ApiResponse × List Event :=
  match outcome with
  | .timeout =>
      (none, [Event.showError "Request timed out. Please try again.",
              Event.logError "API request timed out"])
  | .requestError e =>
      (none, [Event.showError ("API Error: " ++ e),
              Event.logError ("API request failed: " ++ e)])
  | .decodeError =>
      (none, [Event.showError "Invalid response from API",
              Event.logError "Failed to decode API response"])
  | .ok r => (some r, [])

/-- The formatted line for one history message (lines 184-185):
`role = "Human:" if msg["role"] == "user" else "Assistant:"` followed by
`f"\x7brole\x7d \x7bmsg['content']\x7d"`. -/
def format_message (m : Message) : String :=
  (if m.role = Role.user then "Human:" else "Assistant:") ++ " " ++ m.content

/-- The `history` list built by `build_prompt_with_history`
(lines 176-187): optional system line (with its trailing `"\n"` written
in the f-string at line 180), the trailing slice of the message log
formatted by role, and the new `"Human: ..."` line. -/
def build_prompt_history (system_prompt : String) (messages : List Message)
    (user_input : String) (maxHistory : Nat) : List String :=
  (if system_prompt = "" then [] else ["System: " ++ system_prompt ++ "\n"]) ++
  (pySliceLast maxHistory messages).map format_message ++
  ["Human: " ++ user_input]

/-- Embedding of `build_prompt_with_history` (lines 166-188):
`"\n".join(history) + "\nAssistant:"`. -/
def build_prompt_with_history (system_prompt : String) (messages : List Message)
    (user_input : String) (maxHistory : Nat) : String :=
  String.intercalate "\n" (build_prompt_history system_prompt messages user_input maxHistory)
    ++ "\nAssistant:"

/-- Embedding of `handle_user_input` (lines 190-239). The source first
calls `rate_limit_check` (line 207), then validates the input
(line 210), then appends the user turn, builds the prompt, posts it, and
either appends the trimmed assistant text or reports an error. The
network result is the `outcome` argument; `now` is `time.time()` at the
rate check. -/
def handle_user_input (s : ConversationState) (now interval : ℚ)
    (maxHistory : Nat) (user_input : String) (outcome : CallOutcome) :
    ConversationState × List Event :=
  let rc := rate_limit_check interval s.last_request_time now
  let s1 : ConversationState := { s with last_request_time := rc.1 }
  if rc.2.1 = false then (s1, rc.2.2)
  else if pyStrip user_input = "" then
    (s1, rc.2.2 ++ [Event.warn "Please enter a non-empty message."])
  else
    let s2 : ConversationState :=
      { s1 with messages := s1.messages ++ [{ role := Role.user, content := user_input }] }
    let prompt := build_prompt_with_history s2.system_prompt s2.messages user_input maxHistory
    let call := send_request_to_model outcome
    let evs := rc.2.2 ++ [Event.chatUser user_input, Event.apiCall prompt] ++ call.2
    match call.1 with
    | some r =>
      match r.choices with
      | some (t :: _) =>
        let ai := pyStrip t
        ({ s2 with messages := s2.messages ++ [{ role := Role.assistant, content := ai }] },
         evs ++ [Event.chatAssistant ai])
      | some [] => (s2, evs ++ [Event.showError "Failed to get a valid response from the model."])
      | none => (s2, evs ++ [Event.showError "Failed to get a valid response from the model."])
    | none => (s2, evs ++ [Event.showError "Failed to get a valid response from the model."])

/-- Embedding of the Reset Chat action (lines 344-346):
`st.session_state["messages"] = []`. Only the message log is assigned. -/
def reset_chat (s : ConversationState) : ConversationState :=
  { s with messages := [] }

/-- Running `rate_limit_check` over a trace of call times, threading
`last_request_time`: yields each call's time paired with its verdict. -/
def run_rate_limit (interval : ℚ) : ℚ → List ℚ → List (ℚ × Bool)
  | _, [] => []
  | last, t :: ts =>
    let rc := rate_limit_check interval last t
    (t, rc.2.1) :: run_rate_limit interval rc.1 ts

/-- The times of the calls the gate allowed, in trace order. -/
def success_times (interval last : ℚ) (ts : List ℚ) : List ℚ :=
  ((run_rate_limit interval last ts).filter (fun p => p.2)).map (fun p => p.1)

/-! ## Theorems -/

/-- C3: for every interval, stored timestamp and call time, the gate
returns false and leaves the timestamp unchanged when
`now - last_request_time < min_interval`, and otherwise returns true and
sets the timestamp to `now`; the timestamp moves only in the success
case. -/
theorem rate_limit_check_gate_spec (interval last now : ℚ) :
    (now - last < interval →
      rate_limit_check interval last now =
        (last, false,
          [Event.warn ("Please wait " ++ toString interval ++ " seconds between messages.")])) ∧
    (¬ now - last < interval →
      rate_limit_check interval last now = (now, true, [])) := by
  constructor <;> intro h <;> simp [rate_limit_check, h]

theorem rate_limit_check_gate_spec_witness :
    rate_limit_check 1 0 (1/2) =
      (0, false,
        [Event.warn ("Please wait " ++ toString (1 : ℚ) ++ " seconds between messages.")]) ∧
    rate_limit_check 1 0 5 = (5, true, []) :=
  ⟨(rate_limit_check_gate_spec 1 0 (1/2)).1 (by norm_num),
   (rate_limit_check_gate_spec 1 0 5).2 (by norm_num)⟩

/-- C9: resetting the chat empties the message log and changes no other
field of the conversation state. -/
theorem reset_chat_clears_only_messages (s : ConversationState) :
    (reset_chat s).messages = [] ∧
    (reset_chat s).system_prompt = s.system_prompt ∧
    (reset_chat s).last_request_time = s.last_request_time :=
  ⟨rfl, rfl, rfl⟩

/-- C2, counterexample: with system prompt `"Be terse."`, an empty log
and input `"Hi"`, the built prompt is not the string the claim
announces — line 180 of the source appends its own `"\n"` to the system
line, so a blank line follows it after the join. -/
theorem build_prompt_simple_example_counterexample :
    build_prompt_with_history "Be terse." [] "Hi" MAX_HISTORY_MESSAGES ≠
      "System: Be terse.\nHuman: Hi\nAssistant:" := by
  decide

/-- C2, amended: the prompt built for system prompt `"Be terse."`, empty
log and input `"Hi"` is `"System: Be terse.\n\nHuman: Hi\nAssistant:"`,
with a blank line after the system line. -/
theorem build_prompt_simple_example_amended :
    build_prompt_with_history "Be terse." [] "Hi" MAX_HISTORY_MESSAGES =
      "System: Be terse.\n\nHuman: Hi\nAssistant:" := rfl

/-- C1, counterexample: a whitespace-only turn does not leave
`last_request_time` unchanged — `handle_user_input` consults the rate
limiter (line 207) before validating the input (line 210), so a turn
with empty input arriving at time 10 against a state with
`last_request_time = 0` and a 1-second interval moves the timestamp to
10 and only then aborts with the validation warning. -/
theorem validation_order_counterexample :
    handle_user_input
        { messages := [], system_prompt := "p", last_request_time := 0 }
        10 1 5 "" CallOutcome.timeout =
      ({ messages := [], system_prompt := "p", last_request_time := 10 },
       [Event.warn "Please enter a non-empty message."]) ∧
    (10 : ℚ) ≠ 0 := by
  constructor
  · norm_num [handle_user_input, rate_limit_check, pyStrip, isPyWhitespace]
  · norm_num

/-- C1, amended: the rate-limit check precedes input validation — a turn
whose input is empty or whitespace-only and whose gate check succeeds
first sets `last_request_time` to `now`, then aborts at validation with
a warning, appending nothing to the message log. -/
theorem rate_check_precedes_validation (s : ConversationState) (now interval : ℚ)
    (maxHistory : Nat) (user_input : String) (outcome : CallOutcome)
    (hempty : pyStrip user_input = "")
    (hallow : ¬ now - s.last_request_time < interval) :
    handle_user_input s now interval maxHistory user_input outcome =
      ({ s with last_request_time := now },
       [Event.warn "Please enter a non-empty message."]) := by
  simp [handle_user_input, rate_limit_check, hallow, hempty]

theorem rate_check_precedes_validation_witness :
    handle_user_input
        { messages := [], system_prompt := "p", last_request_time := 0 }
        10 1 5 " " CallOutcome.timeout =
      ({ messages := [], system_prompt := "p", last_request_time := 10 },
       [Event.warn "Please enter a non-empty message."]) :=
  rate_check_precedes_validation
    { messages := [], system_prompt := "p", last_request_time := 0 }
    10 1 5 " " CallOutcome.timeout (by decide) (by norm_num)

/-- C6: a handled turn can only extend the message log at its end — the
resulting log is the old log followed by some (possibly empty) appended
tail, so no stored message is dropped or reordered, and the prompt
construction step in between leaves the stored log intact. -/
theorem messages_append_only (s : ConversationState) (now interval : ℚ)
    (maxHistory : Nat) (user_input : String) (outcome : CallOutcome) :
    ∃ tail : List Message,
      (handle_user_input s now interval maxHistory user_input outcome).1.messages =
        s.messages ++ tail := by
  by_cases h1 : now - s.last_request_time < interval
  · exact ⟨[], by simp [handle_user_input, rate_limit_check, h1]⟩
  · by_cases h2 : pyStrip user_input = ""
    · exact ⟨[], by simp [handle_user_input, rate_limit_check, h1, h2]⟩
    · cases outcome with
      | timeout =>
        exact ⟨[{ role := Role.user, content := user_input }],
          by simp [handle_user_input, rate_limit_check, send_request_to_model, h1, h2]⟩
      | requestError e =>
        exact ⟨[{ role := Role.user, content := user_input }],
          by simp [handle_user_input, rate_limit_check, send_request_to_model, h1, h2]⟩
      | decodeError =>
        exact ⟨[{ role := Role.user, content := user_input }],
          by simp [handle_user_input, rate_limit_check, send_request_to_model, h1, h2]⟩
      | ok r =>
        rcases r with ⟨choices⟩
        cases choices with
        | none =>
          exact ⟨[{ role := Role.user, content := user_input }],
            by simp [handle_user_input, rate_limit_check, send_request_to_model, h1, h2]⟩
        | some l =>
          cases l with
          | nil =>
            exact ⟨[{ role := Role.user, content := user_input }],
              by simp [handle_user_input, rate_limit_check, send_request_to_model, h1, h2]⟩
          | cons t rest =>
            exact ⟨[{ role := Role.user, content := user_input },
                    { role := Role.assistant, content := pyStrip t }],
              by simp [handle_user_input, rate_limit_check, send_request_to_model, h1, h2]⟩

/-- C5: the built prompt draws its history from a trailing slice of the
log of length at most the window, each entry formatted by role, and ends
with the literal generation cue line. -/
theorem build_prompt_window_bound (system_prompt user_input : String)
    (messages : List Message) (maxHistory : Nat) (hN : 0 < maxHistory) :
    ∃ included : List Message,
      included.length ≤ maxHistory ∧
      included <:+ messages ∧
      build_prompt_with_history system_prompt messages user_input maxHistory =
        String.intercalate "\n"
          ((if system_prompt = "" then [] else ["System: " ++ system_prompt ++ "\n"]) ++
            included.map format_message ++ ["Human: " ++ user_input]) ++ "\nAssistant:" ∧
      ∃ rest : String,
        build_prompt_with_history system_prompt messages user_input maxHistory =
          rest ++ "\nAssistant:" := by
  have hN' : maxHistory ≠ 0 := Nat.pos_iff_ne_zero.mp hN
  refine ⟨messages.drop (messages.length - maxHistory), ?_, List.drop_suffix _ _, ?_, ?_⟩
  · rw [List.length_drop]; omega
  · simp [build_prompt_with_history, build_prompt_history, pySliceLast, hN']
  · exact ⟨_, rfl⟩

theorem build_prompt_window_bound_witness :
    ∃ included : List Message,
      included.length ≤ 1 ∧
      included <:+ [{ role := Role.user, content := "a" },
                    { role := Role.assistant, content := "b" }] ∧
      build_prompt_with_history "s"
          [{ role := Role.user, content := "a" },
           { role := Role.assistant, content := "b" }] "x" 1 =
        String.intercalate "\n"
          ((if ("s" : String) = "" then [] else ["System: " ++ "s" ++ "\n"]) ++
            included.map format_message ++ ["Human: " ++ "x"]) ++ "\nAssistant:" ∧
      ∃ rest : String,
        build_prompt_with_history "s"
            [{ role := Role.user, content := "a" },
             { role := Role.assistant, content := "b" }] "x" 1 =
          rest ++ "\nAssistant:" :=
  build_prompt_window_bound "s" "x"
    [{ role := Role.user, content := "a" }, { role := Role.assistant, content := "b" }]
    1 (by decide)

/-- C4: when the completion call fails (timeout, transport error or
undecodable body) on a turn that passed the gate and validation, the
controller emits a visible error and a diagnostic log entry, appends no
assistant message — the log ends with the just-submitted user turn — and
leaves the system prompt untouched. -/
theorem completion_failure_effects (s : ConversationState) (now interval : ℚ)
    (maxHistory : Nat) (user_input : String) (outcome : CallOutcome)
    (hallow : ¬ now - s.last_request_time < interval)
    (hvalid : pyStrip user_input ≠ "")
    (hfail : outcome.isFailure = true) :
    (∃ m, Event.showError m ∈
      (handle_user_input s now interval maxHistory user_input outcome).2) ∧
    (∃ m, Event.logError m ∈
      (handle_user_input s now interval maxHistory user_input outcome).2) ∧
    (handle_user_input s now interval maxHistory user_input outcome).1.messages =
      s.messages ++ [{ role := Role.user, content := user_input }] ∧
    (handle_user_input s now interval maxHistory user_input outcome).1.system_prompt =
      s.system_prompt := by
  cases outcome with
  | timeout =>
    refine ⟨⟨"Request timed out. Please try again.", ?_⟩,
            ⟨"API request timed out", ?_⟩, ?_, ?_⟩ <;>
      simp [handle_user_input, rate_limit_check, send_request_to_model, hallow, hvalid]
  | requestError e =>
    refine ⟨⟨"API Error: " ++ e, ?_⟩, ⟨"API request failed: " ++ e, ?_⟩, ?_, ?_⟩ <;>
      simp [handle_user_input, rate_limit_check, send_request_to_model, hallow, hvalid]
  | decodeError =>
    refine ⟨⟨"Invalid response from API", ?_⟩,
            ⟨"Failed to decode API response", ?_⟩, ?_, ?_⟩ <;>
      simp [handle_user_input, rate_limit_check, send_request_to_model, hallow, hvalid]
  | ok r =>
    simp [CallOutcome.isFailure] at hfail

theorem completion_failure_effects_witness :
    (∃ m, Event.showError m ∈
      (handle_user_input { messages := [], system_prompt := "p", last_request_time := 0 }
        10 1 5 "Hi" CallOutcome.timeout).2) ∧
    (∃ m, Event.logError m ∈
      (handle_user_input { messages := [], system_prompt := "p", last_request_time := 0 }
        10 1 5 "Hi" CallOutcome.timeout).2) ∧
    (handle_user_input { messages := [], system_prompt := "p", last_request_time := 0 }
        10 1 5 "Hi" CallOutcome.timeout).1.messages =
      [] ++ [{ role := Role.user, content := "Hi" }] ∧
    (handle_user_input { messages := [], system_prompt := "p", last_request_time := 0 }
        10 1 5 "Hi" CallOutcome.timeout).1.system_prompt = "p" :=
  completion_failure_effects
    { messages := [], system_prompt := "p", last_request_time := 0 }
    10 1 5 "Hi" CallOutcome.timeout (by norm_num) (by decide) (by decide)

/-- The transport-error report string can never coincide with the
decode-failure report string, whatever the underlying cause text. -/
theorem api_error_ne_invalid_response (detail : String) :
    ("API Error: " ++ detail) ≠ "Invalid response from API" := by
  intro h
  have h1 : ("API Error: " ++ detail).data.head? = some 'A' := by
    rw [String.data_append]; rfl
  rw [h] at h1
  exact absurd h1 (by decide)

/-- C7, counterexample: a parseable body that lacks the completion field
is not reported distinctly from transport errors. On such a turn the
full event list holds exactly one error report, the generic
`"Failed to get a valid response from the model."` from line 239 — no
dedicated malformed-response message and no `logger.error` — and that
same generic message is also emitted on a transport-error turn. -/
theorem missing_choices_reported_generically :
    (handle_user_input { messages := [], system_prompt := "p", last_request_time := 0 }
        10 1 5 "Hi" (CallOutcome.ok { choices := none })).2 =
      [Event.chatUser "Hi",
       Event.apiCall (build_prompt_with_history "p"
         [{ role := Role.user, content := "Hi" }] "Hi" 5),
       Event.showError "Failed to get a valid response from the model."] ∧
    Event.showError "Failed to get a valid response from the model." ∈
      (handle_user_input { messages := [], system_prompt := "p", last_request_time := 0 }
        10 1 5 "Hi" (CallOutcome.requestError "boom")).2 := by
  constructor <;>
    norm_num [handle_user_input, rate_limit_check, send_request_to_model,
      show pyStrip "Hi" ≠ "" from by decide]

/-- C7, amended: only the unparseable-body case is reported distinctly
from transport errors — it gets the dedicated `"Invalid response from
API"` message, never emitted on a transport error or timeout. A
parseable body lacking the completion field instead gets only the
generic `"Failed to get a valid response from the model."` message,
with no diagnostic log entry, and that same generic message is also
emitted on transport-error turns. -/
theorem malformed_response_reporting (s : ConversationState)
    (now interval : ℚ) (maxHistory : Nat) (user_input : String) (detail : String)
    (hallow : ¬ now - s.last_request_time < interval)
    (hvalid : pyStrip user_input ≠ "") :
    Event.showError "Invalid response from API" ∈
      (handle_user_input s now interval maxHistory user_input CallOutcome.decodeError).2 ∧
    Event.showError "Invalid response from API" ∉
      (handle_user_input s now interval maxHistory user_input
        (CallOutcome.requestError detail)).2 ∧
    Event.showError "Invalid response from API" ∉
      (handle_user_input s now interval maxHistory user_input CallOutcome.timeout).2 ∧
    Event.showError "Failed to get a valid response from the model." ∈
      (handle_user_input s now interval maxHistory user_input
        (CallOutcome.ok { choices := none })).2 ∧
    Event.showError "Failed to get a valid response from the model." ∈
      (handle_user_input s now interval maxHistory user_input
        (CallOutcome.requestError detail)).2 ∧
    (∀ m, Event.logError m ∉
      (handle_user_input s now interval maxHistory user_input
        (CallOutcome.ok { choices := none })).2) ∧
    (∀ m, Event.showError m ∈
      (handle_user_input s now interval maxHistory user_input
        (CallOutcome.ok { choices := none })).2 →
      m = "Failed to get a valid response from the model.") := by
  refine ⟨?_, ?_, ?_, ?_, ?_, ?_, ?_⟩
  · simp [handle_user_input, rate_limit_check, send_request_to_model, hallow, hvalid]
  · simp [handle_user_input, rate_limit_check, send_request_to_model, hallow, hvalid,
      (api_error_ne_invalid_response detail).symm,
      show ("Invalid response from API" : String) ≠
        "Failed to get a valid response from the model." from by decide]
  · simp [handle_user_input, rate_limit_check, send_request_to_model, hallow, hvalid,
      show ("Invalid response from API" : String) ≠
        "Request timed out. Please try again." from by decide,
      show ("Invalid response from API" : String) ≠
        "Failed to get a valid response from the model." from by decide]
  · simp [handle_user_input, rate_limit_check, send_request_to_model, hallow, hvalid]
  · simp [handle_user_input, rate_limit_check, send_request_to_model, hallow, hvalid]
  · intro m
    simp [handle_user_input, rate_limit_check, send_request_to_model, hallow, hvalid]
  · intro m hm
    simp [handle_user_input, rate_limit_check, send_request_to_model, hallow, hvalid] at hm
    exact hm

theorem malformed_response_reporting_witness :
    Event.showError "Invalid response from API" ∈
      (handle_user_input { messages := [], system_prompt := "p", last_request_time := 0 }
        10 1 5 "Hi" CallOutcome.decodeError).2 ∧
    Event.showError "Invalid response from API" ∉
      (handle_user_input { messages := [], system_prompt := "p", last_request_time := 0 }
        10 1 5 "Hi" (CallOutcome.requestError "boom")).2 ∧
    Event.showError "Invalid response from API" ∉
      (handle_user_input { messages := [], system_prompt := "p", last_request_time := 0 }
        10 1 5 "Hi" CallOutcome.timeout).2 ∧
    Event.showError "Failed to get a valid response from the model." ∈
      (handle_user_input { messages := [], system_prompt := "p", last_request_time := 0 }
        10 1 5 "Hi" (CallOutcome.ok { choices := none })).2 ∧
    Event.showError "Failed to get a valid response from the model." ∈
      (handle_user_input { messages := [], system_prompt := "p", last_request_time := 0 }
        10 1 5 "Hi" (CallOutcome.requestError "boom")).2 ∧
    (∀ m, Event.logError m ∉
      (handle_user_input { messages := [], system_prompt := "p", last_request_time := 0 }
        10 1 5 "Hi" (CallOutcome.ok { choices := none })).2) ∧
    (∀ m, Event.showError m ∈
      (handle_user_input { messages := [], system_prompt := "p", last_request_time := 0 }
        10 1 5 "Hi" (CallOutcome.ok { choices := none })).2 →
      m = "Failed to get a valid response from the model.") :=
  malformed_response_reporting
    { messages := [], system_prompt := "p", last_request_time := 0 }
    10 1 5 "Hi" "boom" (by norm_num) (by decide)

/-- Unfolding of one gate call inside a trace of calls. -/
theorem success_times_cons (interval last t : ℚ) (ts : List ℚ) :
    success_times interval last (t :: ts) =
      if t - last < interval then success_times interval last ts
      else t :: success_times interval t ts := by
  by_cases h : t - last < interval <;>
    simp [success_times, run_rate_limit, rate_limit_check, h]

/-- Every time the gate allows is at least one interval after the stored
timestamp the trace started from. -/
theorem success_times_lower_bound (interval : ℚ) (hnn : 0 ≤ interval) :
    ∀ (ts : List ℚ) (last : ℚ), ∀ x ∈ success_times interval last ts,
      last + interval ≤ x := by
  intro ts
  induction ts with
  | nil =>
    intro last x hx
    simp [success_times, run_rate_limit] at hx
  | cons t ts ih =>
    intro last x hx
    rw [success_times_cons] at hx
    by_cases h : t - last < interval
    · rw [if_pos h] at hx
      exact ih last x hx
    · rw [if_neg h] at hx
      push_neg at h
      rcases List.mem_cons.mp hx with rfl | hx'
      · linarith
      · have ht := ih t x hx'
        linarith

/-- C8: over any trace of gate calls threading the same state, no two
allowed calls lie within one interval of each other — successive success
times are pairwise at least `min_interval` apart. -/
theorem rate_limit_no_close_successes (interval last : ℚ) (ts : List ℚ)
    (hpos : 0 < interval) :
    (success_times interval last ts).Pairwise (fun a b => interval ≤ b - a) := by
  induction ts generalizing last with
  | nil => simp [success_times, run_rate_limit]
  | cons t ts ih =>
    rw [success_times_cons]
    by_cases h : t - last < interval
    · rw [if_pos h]
      exact ih last
    · rw [if_neg h]
      refine List.Pairwise.cons ?_ (ih t)
      intro x hx
      have hb := success_times_lower_bound interval (le_of_lt hpos) ts t x hx
      linarith

theorem rate_limit_no_close_successes_witness :
    (success_times 1 0 [5, 11]).Pairwise (fun a b => (1 : ℚ) ≤ b - a) :=
  rate_limit_no_close_successes 1 0 [5, 11] (by norm_num)

/-- C10: on a turn that passes the gate and validation with a history
window of at least one, the prompt posted to the endpoint is built from
the log with the user turn already appended, and its line list carries
the `"Human: ..."` line for that input at least twice — once from the
trailing history slice and once as the explicit new-input line. -/
theorem user_turn_duplicated_in_prompt (s : ConversationState) (now interval : ℚ)
    (maxHistory : Nat) (user_input : String) (outcome : CallOutcome)
    (hallow : ¬ now - s.last_request_time < interval)
    (hvalid : pyStrip user_input ≠ "")
    (hN : 1 ≤ maxHistory) :
    Event.apiCall (build_prompt_with_history s.system_prompt
        (s.messages ++ [{ role := Role.user, content := user_input }])
        user_input maxHistory)
      ∈ (handle_user_input s now interval maxHistory user_input outcome).2 ∧
    2 ≤ List.count ("Human: " ++ user_input)
        (build_prompt_history s.system_prompt
          (s.messages ++ [{ role := Role.user, content := user_input }])
          user_input maxHistory) := by
  constructor
  · cases outcome with
    | timeout =>
      simp [handle_user_input, rate_limit_check, send_request_to_model, hallow, hvalid]
    | requestError e =>
      simp [handle_user_input, rate_limit_check, send_request_to_model, hallow, hvalid]
    | decodeError =>
      simp [handle_user_input, rate_limit_check, send_request_to_model, hallow, hvalid]
    | ok r =>
      rcases r with ⟨choices⟩
      cases choices with
      | none =>
        simp [handle_user_input, rate_limit_check, send_request_to_model, hallow, hvalid]
      | some l =>
        cases l with
        | nil =>
          simp [handle_user_input, rate_limit_check, send_request_to_model, hallow, hvalid]
        | cons t rest =>
          simp [handle_user_input, rate_limit_check, send_request_to_model, hallow, hvalid]
  · have hmem : ({ role := Role.user, content := user_input } : Message) ∈
        pySliceLast maxHistory
          (s.messages ++ [{ role := Role.user, content := user_input }]) := by
      unfold pySliceLast
      rw [if_neg (by omega : ¬ maxHistory = 0)]
      rw [List.drop_append_of_le_length (by simp; omega)]
      exact List.mem_append_right _ (by simp)
    have hfmt : format_message { role := Role.user, content := user_input } =
        "Human: " ++ user_input := rfl
    have hcnt : 0 < List.count ("Human: " ++ user_input)
        ((pySliceLast maxHistory
          (s.messages ++ [{ role := Role.user, content := user_input }])).map
            format_message) :=
      List.count_pos_iff.mpr (hfmt ▸ List.mem_map_of_mem format_message hmem)
    have hone : List.count ("Human: " ++ user_input)
        (["Human: " ++ user_input] : List String) = 1 := by simp
    unfold build_prompt_history
    rw [List.count_append, List.count_append, hone]
    omega

theorem user_turn_duplicated_in_prompt_witness :
    Event.apiCall (build_prompt_with_history ""
        ([] ++ [{ role := Role.user, content := "Hi" }]) "Hi" 1)
      ∈ (handle_user_input { messages := [], system_prompt := "", last_request_time := 0 }
          10 1 1 "Hi" CallOutcome.timeout).2 ∧
    2 ≤ List.count ("Human: " ++ "Hi")
        (build_prompt_history "" ([] ++ [{ role := Role.user, content := "Hi" }]) "Hi" 1) :=
  user_turn_duplicated_in_prompt
    { messages := [], system_prompt := "", last_request_time := 0 }
    10 1 1 "Hi" CallOutcome.timeout (by norm_num) (by decide) (by decide)

end NeuroChat
